import Mathlib

/-!
Verification development for the Phoenix Outbreak Intelligence core:
the intent-routing classifier (`src/agents/orchestrator/router.py`) and the
multi-stage workflow orchestrator (`src/agents/orchestrator/workflow.py`),
shallowly embedded in Lean.

Modelling conventions:
* Python floats are embedded as `Rat` (all constants in the code are exact
  decimals, so this is lossless).
* Python dicts that act as records are embedded as structures; a key the code
  may leave absent is an `Option` field (absent = `none`), a key read with
  `.get(k, default)` is read here with `Option.getD`.
* `re` patterns are embedded as dedicated matchers over `List Char`.  The
  word-boundary `\b` is modelled with ASCII word characters `[A-Za-z0-9_]`,
  matching the ASCII alphabet actually used by the catalog.  `re.IGNORECASE`
  is modelled by comparing characters through `Char.toLower`.
* Python `list(set(xs))` deduplicates with unspecified order; it is embedded
  as `List.dedup`, and all properties proved about deduplicated lists use
  only membership / emptiness, which the order cannot affect.
* Timestamps (`datetime.now()`) are threaded as an explicit `now : String`
  parameter; no property depends on its value.
-/

attribute [local semireducible] Rat.mul Rat.add Rat.sub Rat.inv Rat.ofScientific

/-! ## Text utilities shared by the router embedding -/

/-- Python `str.lower()` (ASCII case folding, which covers the catalog). -/
def lowerStr (s : String) : String := ⟨s.data.map Char.toLower⟩

/-- Python `str.strip()`: whitespace removed from both ends. -/
def stripStr (s : String) : String :=
  ⟨((s.data.dropWhile Char.isWhitespace).reverse.dropWhile Char.isWhitespace).reverse⟩

/-- A regex word character (`\w` restricted to ASCII): letter, digit or underscore. -/
def isWordChar (c : Char) : Bool := c.isAlpha || c.isDigit || c = '_'

/-- Word boundary `\b` before the first character of a match whose first
character is a word character: start of string, or a non-word character. -/
def boundaryBefore : Option Char → Bool
  | none => true
  | some c => !isWordChar c

/-- Word boundary `\b` after the last character of a match whose last
character is a word character: end of string, or a non-word character. -/
def boundaryAfter : List Char → Bool
  | [] => true
  | c :: _ => !isWordChar c

/-- Case-insensitive literal prefix match: on success returns the matched
input characters (original case) and the remaining input. -/
def ciMatchFront : List Char → List Char → Option (List Char × List Char)
  | [], cs => some ([], cs)
  | _ :: _, [] => none
  | p :: ps, c :: cs =>
    if c.toLower = p.toLower then
      match ciMatchFront ps cs with
      | some (m, r) => some (c :: m, r)
      | none => none
    else none

/-- Python substring containment `needle in haystack`. -/
def containsSub : List Char → List Char → Bool
  | nd, [] => nd.isEmpty
  | nd, c :: rest => nd.isPrefixOf (c :: rest) || containsSub nd rest

/-- One position of `re.search(r"\bw\b", s)` for a plain word `w` (all word
characters): `w` occurs here with boundaries on both sides. -/
def wordAt (w : List Char) (cs : List Char) : Bool :=
  w.isPrefixOf cs && boundaryAfter (cs.drop w.length)

/-- Scan of `re.search(r"\bw\b", s)` for a nonempty plain word `w`; `prev` is
the character preceding the current position (`none` at start of string). -/
def searchWordAux (w : List Char) : Option Char → List Char → Bool
  | _, [] => false
  | prev, c :: rest =>
    (boundaryBefore prev && wordAt w (c :: rest)) || searchWordAux w (some c) rest

/-- `re.search(r"\bw\b", s) is not None` for a plain word `w`. -/
def reSearchWord (w : String) (s : String) : Bool :=
  searchWordAux w.data none s.data

/-! ## Intent enumeration (router.py `UserIntent`) -/

inductive UserIntent where
  | outbreak_status
  | risk_assessment
  | public_guidance
  | resource_planning
  | school_guidance
  | travel_guidance
  | hospital_capacity
  | rumor_validation
  | general_information
  | emergency_alert
deriving DecidableEq

/-! ## Pattern catalog (router.py `_load_intent_patterns`) -/

/-- One intent rule of the catalog.  A keyword `r"\bword\b"` is stored as the
bare word and interpreted through `reSearchWord`.  No rule in the shipped
catalog defines `exact_matches`; the field defaults to `[]` exactly as
`patterns.get("exact_matches", [])` does. -/
structure PatternRule where
  keywords : List String
  phrases : List String
  exact_matches : List String := []
  weight : Rat
deriving DecidableEq

/-- The catalog, in dict insertion order (which is the iteration order the
classifier sees). -/
def intent_patterns : List (UserIntent × PatternRule) :=
  [ (.outbreak_status,
      { keywords := ["outbreak", "spread", "cases", "increasing", "status", "situation", "current"],
        phrases := ["outbreak status", "current situation", "case numbers",
                    "is there an outbreak", "outbreak activity", "infection rate"],
        weight := 2.0 }),
    (.risk_assessment,
      { keywords := ["risk", "danger", "threat", "assess", "safety", "score"],
        phrases := ["risk level", "how dangerous", "threat assessment", "risk score", "safety level"],
        weight := 2.0 }),
    (.public_guidance,
      { keywords := ["guidance", "recommend", "advice", "should", "protection", "precaution"],
        phrases := ["public guidance", "recommendations", "what should",
                    "health advice", "safety measures", "precautions"],
        weight := 2.0 }),
    (.school_guidance,
      { keywords := ["school", "student", "education", "class", "teacher", "campus"],
        phrases := ["school safety", "student guidance", "classroom precautions",
                    "school closure", "educational settings"],
        weight := 2.5 }),
    (.travel_guidance,
      { keywords := ["travel", "trip", "flight", "transport", "airport", "visit"],
        phrases := ["travel advice", "travel restrictions", "safe to travel",
                    "travel guidance", "trip safety"],
        weight := 2.5 }),
    (.resource_planning,
      { keywords := ["resource", "supply", "capacity", "bed", "ppe", "equipment", "shortage"],
        phrases := ["resource allocation", "hospital capacity", "bed availability",
                    "ppe shortage", "medical supplies", "resource planning"],
        weight := 2.0 }),
    (.hospital_capacity,
      { keywords := ["hospital", "icu", "bed", "capacity", "available", "full"],
        phrases := ["hospital capacity", "icu availability", "bed shortage",
                    "hospital full", "medical capacity"],
        weight := 2.5 }),
    (.rumor_validation,
      { keywords := ["rumor", "heard", "true", "false", "verify", "check", "claim"],
        phrases := ["is it true", "verify claim", "fact check", "rumor validation",
                    "heard that", "check if"],
        weight := 2.0 }),
    (.emergency_alert,
      { keywords := ["emergency", "crisis", "urgent", "critical", "alert", "immediate"],
        phrases := ["emergency alert", "crisis situation", "urgent response",
                    "critical outbreak", "immediate action"],
        weight := 3.0 }),
    (.general_information,
      { keywords := ["what", "how", "when", "where", "info", "help"],
        phrases := ["general information", "tell me about", "help with", "information about"],
        weight := 1.0 }) ]

/-! ## Intent classification (router.py `_classify_intent`) -/

/-- Keyword part of a rule score: `weight` added once per matching keyword
pattern (`if re.search(pattern, lower): score += weight`). -/
def keywordScore (rule : PatternRule) (lowered : String) : Rat :=
  ((rule.keywords.filter (fun k => reSearchWord k lowered)).length : Rat) * rule.weight

/-- Phrase part of a rule score: `weight * 1.5` added once per phrase that is
a substring of the lowered input. -/
def phraseScore (rule : PatternRule) (lowered : String) : Rat :=
  ((rule.phrases.filter (fun p => containsSub p.data lowered.data)).length : Rat)
    * (rule.weight * 1.5)

/-- Exact-match part of a rule score: `10.0` added once per cataloged exact
string equal to the stripped lowered input. -/
def exactScore (rule : PatternRule) (lowered : String) : Rat :=
  ((rule.exact_matches.filter (fun e => e = stripStr lowered)).length : Rat) * 10

/-- Total score of one rule against the lowered input (the three loops of
`_classify_intent`). -/
def scoreRule (rule : PatternRule) (lowered : String) : Rat :=
  keywordScore rule lowered + phraseScore rule lowered + exactScore rule lowered

/-- `intent_scores`: the rules with strictly positive score, in catalog
order (dict insertion order). -/
def intentScores (user_input : String) : List (UserIntent × Rat) :=
  let lowered := lowerStr user_input
  (intent_patterns.map (fun p => (p.1, scoreRule p.2 lowered))).filter
    (fun p => decide (0 < p.2))

/-- Python `max(items, key=score)`: first item with the maximal score. -/
def bestBy : UserIntent × Rat → List (UserIntent × Rat) → UserIntent × Rat
  | b, [] => b
  | b, x :: xs => bestBy (if b.2 < x.2 then x else b) xs

/-- `_classify_intent`: best-scoring intent with confidence
`min(score / 15.0, 1.0)`, or `(GENERAL_INFORMATION, 0.3)` when no rule
scores above zero. -/
def classify_intent (user_input : String) : UserIntent × Rat :=
  match intentScores user_input with
  | [] => (.general_information, 0.3)
  | x :: xs =>
    let best := bestBy x xs
    (best.1, min (best.2 / 15) 1)

example : classify_intent "" = (.general_information, 0.3) := by decide
example : classify_intent "outbreak" = (.outbreak_status, 2 / 15) := by decide

/-! ## Entity extraction (router.py `_extract_entities`)

Every `re.findall` call in `_extract_entities` passes `re.IGNORECASE`, for the
location patterns as well as for the other four categories; under that flag
`[A-Z]` and `[a-z]` both match any ASCII letter and literal words match in any
case.  Each fixed pattern is embedded as a dedicated matcher returning, at one
start position, the text of group 1 (the whole match, in the input's original
case) and the remaining input; `reFindAll` then performs the non-overlapping
left-to-right scan of `re.findall`. -/

/-- Try a list of literal alternatives (in order, as regex alternation does)
case-insensitively, requiring a word boundary after the match. -/
def ciAltBoundary (alts : List (List Char)) (cs : List Char) :
    Option (List Char × List Char) :=
  alts.findSome? (fun alt =>
    match ciMatchFront alt cs with
    | some (m, rest) => if boundaryAfter rest then some (m, rest) else none
    | none => none)

/-- Location pattern 1: `\b([A-Z][a-z]+ (?:County|Parish))\b` under
`re.IGNORECASE`, i.e. a letter run of length at least 2, a space, County or
Parish in any case, with word boundaries around the match. -/
def tryMatchP1 (prev : Option Char) (cs : List Char) : Option (List Char × List Char) :=
  if !boundaryBefore prev then none else
  match cs with
  | [] => none
  | c :: rest =>
    if !c.isAlpha then none else
    let run := (c :: rest).takeWhile Char.isAlpha
    let after := (c :: rest).dropWhile Char.isAlpha
    if run.length < 2 then none else
    match after with
    | ' ' :: after2 =>
      match ciAltBoundary ["county".data, "parish".data] after2 with
      | some (m, rest2) => some (run ++ ' ' :: m, rest2)
      | none => none
    | _ => none

/-- Location pattern 2: `\b([A-Z][a-z]+, [A-Z]{2})\b` under `re.IGNORECASE`:
letter run of length at least 2, comma, space, exactly two letters, word
boundaries around the match. -/
def tryMatchP2 (prev : Option Char) (cs : List Char) : Option (List Char × List Char) :=
  if !boundaryBefore prev then none else
  match cs with
  | [] => none
  | c :: rest =>
    if !c.isAlpha then none else
    let run := (c :: rest).takeWhile Char.isAlpha
    let after := (c :: rest).dropWhile Char.isAlpha
    if run.length < 2 then none else
    match after with
    | ',' :: ' ' :: a :: b :: rest2 =>
      if a.isAlpha && b.isAlpha && boundaryAfter rest2 then
        some (run ++ ',' :: ' ' :: [a, b], rest2)
      else none
    | _ => none

/-- The literal state names of location pattern 3. -/
def state_names : List String :=
  ["California", "Texas", "New York", "Florida", "Illinois",
   "Pennsylvania", "Ohio", "Georgia", "North Carolina", "Michigan"]

/-- Location pattern 3: `\b(California|Texas|...)\b` under `re.IGNORECASE`. -/
def tryMatchP3 (prev : Option Char) (cs : List Char) : Option (List Char × List Char) :=
  if !boundaryBefore prev then none else
  ciAltBoundary (state_names.map String.data) cs

/-- Location pattern 4: `\b([A-Z][a-z]+ [A-Z][a-z]+(?:, [A-Z]{2})?)\b` under
`re.IGNORECASE`: two letter runs of length at least 2 joined by a space, then
greedily an optional `, XX` state suffix, with word boundaries around the
match (regex backtracking drops the optional suffix when the boundary after
it fails). -/
def tryMatchP4 (prev : Option Char) (cs : List Char) : Option (List Char × List Char) :=
  if !boundaryBefore prev then none else
  match cs with
  | [] => none
  | c :: rest =>
    if !c.isAlpha then none else
    let run1 := (c :: rest).takeWhile Char.isAlpha
    let rest1 := (c :: rest).dropWhile Char.isAlpha
    if run1.length < 2 then none else
    match rest1 with
    | ' ' :: c2 :: tail2 =>
      if !c2.isAlpha then none else
      let run2 := (c2 :: tail2).takeWhile Char.isAlpha
      let rest2 := (c2 :: tail2).dropWhile Char.isAlpha
      if run2.length < 2 then none else
      match rest2 with
      | ',' :: ' ' :: a :: b :: rest3 =>
        if a.isAlpha && b.isAlpha && boundaryAfter rest3 then
          some (run1 ++ ' ' :: run2 ++ ',' :: ' ' :: [a, b], rest3)
        else if boundaryAfter rest2 then some (run1 ++ ' ' :: run2, rest2) else none
      | _ => if boundaryAfter rest2 then some (run1 ++ ' ' :: run2, rest2) else none
    | _ => none

/-- A word/phrase alternation pattern `\b(alt1|alt2|...)\b` under
`re.IGNORECASE` (used by the date, health, facility and urgency categories). -/
def tryMatchAlts (alts : List String) (prev : Option Char) (cs : List Char) :
    Option (List Char × List Char) :=
  if boundaryBefore prev then ciAltBoundary (alts.map String.data) cs else none

/-- Greedy `\d{1,2}`: the maximal run of one or two digits (since the
following literal `/` is not a digit, no backtracking can help). -/
def digits1or2 : List Char → Option (List Char × List Char)
  | [] => none
  | [a] => if a.isDigit then some ([a], []) else none
  | a :: b :: rest =>
    if a.isDigit then
      if b.isDigit then some ([a, b], rest) else some ([a], b :: rest)
    else none

/-- Date pattern `\b(\d{1,2}/\d{1,2}/\d{4})\b`. -/
def tryMatchDateSlash (prev : Option Char) (cs : List Char) :
    Option (List Char × List Char) :=
  if !boundaryBefore prev then none else
  match digits1or2 cs with
  | some (d1, '/' :: r1) =>
    match digits1or2 r1 with
    | some (d2, '/' :: r2) =>
      match r2 with
      | a :: b :: c :: d :: r3 =>
        if a.isDigit && b.isDigit && c.isDigit && d.isDigit && boundaryAfter r3 then
          some (d1 ++ '/' :: d2 ++ '/' :: [a, b, c, d], r3)
        else none
      | _ => none
    | _ => none
  | _ => none

/-- Date pattern `\b(\d{4}-\d{2}-\d{2})\b`. -/
def tryMatchDateISO (prev : Option Char) (cs : List Char) :
    Option (List Char × List Char) :=
  if !boundaryBefore prev then none else
  match cs with
  | a :: b :: c :: d :: '-' :: e :: f :: '-' :: g :: h :: rest =>
    if [a, b, c, d, e, f, g, h].all Char.isDigit && boundaryAfter rest then
      some ([a, b, c, d, '-', e, f, '-', g, h], rest)
    else none
  | _ => none

/-- Non-overlapping left-to-right scan of `re.findall`: at each position try
the matcher; on a match emit group 1 and resume after the matched text, else
advance one character.  The fuel is the input length, enough because every
matcher consumes at least one character. -/
def reFindAll (tryM : Option Char → List Char → Option (List Char × List Char)) :
    Nat → Option Char → List Char → List String
  | 0, _, _ => []
  | _ + 1, _, [] => []
  | n + 1, prev, c :: rest =>
    match tryM prev (c :: rest) with
    | some (cap, rest2) => cap.asString :: reFindAll tryM n cap.getLast? rest2
    | none => reFindAll tryM n (some c) rest

/-- `re.findall(pattern, s, re.IGNORECASE)` for one embedded pattern. -/
def findall (tryM : Option Char → List Char → Option (List Char × List Char))
    (s : String) : List String :=
  reFindAll tryM s.data.length none s.data

/-- The entity record built by `_extract_entities`.  Python deduplicates each
category with `list(set(...))`, whose order is unspecified; the embedding uses
`List.dedup` and all proved properties use only membership. -/
structure EntityBag where
  locations : List String
  dates : List String
  health_conditions : List String
  facility_types : List String
  urgency_indicators : List String
deriving DecidableEq

/-- `_extract_entities`: per-category pattern lists applied in source order,
the caller-supplied location context appended to locations before the final
deduplication. -/
def extract_entities (user_input : String) (location_context : Option String) : EntityBag :=
  let locations :=
    findall tryMatchP1 user_input ++ findall tryMatchP2 user_input ++
    findall tryMatchP3 user_input ++ findall tryMatchP4 user_input ++
    location_context.toList
  let dates :=
    findall (tryMatchAlts ["today", "yesterday", "tomorrow"]) user_input ++
    findall (tryMatchAlts ["this week", "next week", "last week"]) user_input ++
    findall (tryMatchAlts ["this month", "next month", "last month"]) user_input ++
    findall tryMatchDateSlash user_input ++
    findall tryMatchDateISO user_input
  let health_conditions :=
    findall (tryMatchAlts ["covid", "coronavirus", "influenza", "flu", "pneumonia"]) user_input ++
    findall (tryMatchAlts ["outbreak", "epidemic", "pandemic"]) user_input ++
    findall (tryMatchAlts ["symptoms", "fever", "cough", "shortness of breath"]) user_input
  let facility_types :=
    findall (tryMatchAlts ["hospital", "clinic", "school", "workplace", "restaurant", "gym"]) user_input ++
    findall (tryMatchAlts ["nursing home", "long-term care", "assisted living"]) user_input ++
    findall (tryMatchAlts ["airport", "public transport", "bus", "train"]) user_input
  let urgency_indicators :=
    findall (tryMatchAlts ["urgent", "emergency", "immediate", "asap", "critical"]) user_input ++
    findall (tryMatchAlts ["now", "quickly", "fast", "rapid"]) user_input
  ⟨locations.dedup, dates.dedup, health_conditions.dedup,
   facility_types.dedup, urgency_indicators.dedup⟩

example : (extract_entities "madison county" none).locations = ["madison county"] := by decide
example : (extract_entities "Fairfax County" none).locations = ["Fairfax County"] := by decide
example : (extract_entities "Boise, ID today" none).locations = ["Boise, ID", "ID today"] := by decide
example : (extract_entities "Boise, ID today" none).dates = ["today"] := by decide
example : (extract_entities "go to texas NOW" none).locations = ["texas", "go to", "texas NOW"] := by decide
example : (extract_entities "go to texas NOW" none).urgency_indicators = ["NOW"] := by decide
example : (extract_entities "Los Angeles, USA" none).locations = ["Los Angeles"] := by decide
example : (extract_entities "hi" (some "Ada County")).locations = ["Ada County"] := by decide

/-! ## Routing strategy (router.py `_determine_routing_strategy`) -/

/-- The routing strategy dict.  `primary_agent` starts as `None` in the code,
hence the `Option`. -/
structure RoutingStrategy where
  primary_agent : Option String
  workflow_type : String
  additional_agents : List String
  parallel_processing : Bool
  priority_level : String
deriving DecidableEq

/-- `.value` of `UserIntent` (the Python enum values). -/
def UserIntent.value : UserIntent → String
  | .outbreak_status => "outbreak_status"
  | .risk_assessment => "risk_assessment"
  | .public_guidance => "public_guidance"
  | .resource_planning => "resource_planning"
  | .school_guidance => "school_guidance"
  | .travel_guidance => "travel_guidance"
  | .hospital_capacity => "hospital_capacity"
  | .rumor_validation => "rumor_validation"
  | .general_information => "general_information"
  | .emergency_alert => "emergency_alert"

/-- `_determine_routing_strategy`: base strategy, urgency/confidence priority
bump, per-intent update, facility adjustment, multi-location override, in
source order. -/
def determine_routing_strategy (intent : UserIntent) (entities : EntityBag)
    (confidence : Rat) : RoutingStrategy :=
  let strategy : RoutingStrategy :=
    { primary_agent := none, workflow_type := "single_agent", additional_agents := [],
      parallel_processing := false, priority_level := "normal" }
  let strategy :=
    if !entities.urgency_indicators.isEmpty || decide ((0.9 : Rat) < confidence) then
      { strategy with priority_level := "high" }
    else strategy
  let strategy :=
    match intent with
    | .outbreak_status =>
      { strategy with
        primary_agent := some "data_intelligence"
        workflow_type := "full_analysis"
        additional_agents := ["public_guidance"]
        parallel_processing := false }
    | .risk_assessment =>
      { strategy with
        primary_agent := some "data_intelligence"
        workflow_type := "risk_focused"
        additional_agents := []
        parallel_processing := false }
    | .public_guidance =>
      { strategy with
        primary_agent := some "public_guidance"
        workflow_type := "guidance_focused"
        additional_agents := ["data_intelligence"]
        parallel_processing := false }
    | .school_guidance | .travel_guidance =>
      { strategy with
        primary_agent := some "public_guidance"
        workflow_type := "audience_specific"
        additional_agents := ["data_intelligence"]
        parallel_processing := false }
    | .resource_planning | .hospital_capacity =>
      { strategy with
        primary_agent := some "resource_planning"
        workflow_type := "resource_focused"
        additional_agents := ["data_intelligence"]
        parallel_processing := false }
    | .rumor_validation =>
      { strategy with
        primary_agent := some "data_intelligence"
        workflow_type := "validation_focused"
        additional_agents := []
        parallel_processing := false }
    | .emergency_alert =>
      { strategy with
        primary_agent := some "orchestrator"
        workflow_type := "emergency_response"
        additional_agents := ["data_intelligence", "public_guidance", "resource_planning"]
        parallel_processing := true
        priority_level := "critical" }
    | .general_information =>
      { strategy with
        primary_agent := some "orchestrator"
        workflow_type := "general_inquiry"
        additional_agents := ["data_intelligence"]
        parallel_processing := false }
  let strategy :=
    if entities.facility_types.contains "hospital" || entities.facility_types.contains "clinic" then
      if !strategy.additional_agents.contains "resource_planning" then
        { strategy with additional_agents := strategy.additional_agents ++ ["resource_planning"] }
      else strategy
    else strategy
  if 1 < entities.locations.length then
    { strategy with workflow_type := "comparative_analysis" }
  else strategy

/-! ## Router entry point (router.py `route_request`) -/

/-- The routing decision dict.  The success dict carries no `fallback` key;
absent is modelled as `false`. -/
structure RoutingDecision where
  intent : String
  confidence : Rat
  entities : EntityBag
  routing_strategy : RoutingStrategy
  user_input : String
  processing_timestamp : String
  fallback : Bool
deriving DecidableEq

/-- `_create_fallback_routing`: the pinned fallback decision.  Its entities
dict carries only a `locations` key (`[location]` if a context was given,
else `[]`); the four absent categories are modelled as `[]`. -/
def create_fallback_routing (user_input : String) (location : Option String)
    (now : String) : RoutingDecision :=
  { intent := "general_information", confidence := 0.1,
    entities := { locations := location.toList, dates := [], health_conditions := [],
                  facility_types := [], urgency_indicators := [] },
    routing_strategy :=
      { primary_agent := some "orchestrator", workflow_type := "general_inquiry",
        additional_agents := ["data_intelligence"], parallel_processing := false,
        priority_level := "normal" },
    user_input := user_input, processing_timestamp := now, fallback := true }

/-- The body of `route_request`'s `try` block: classify, extract, resolve. -/
def route_request_body (user_input : String) (location : Option String) :
    (UserIntent × Rat) × EntityBag × RoutingStrategy :=
  let classified := classify_intent user_input
  let entities := extract_entities user_input location
  let routing_strategy := determine_routing_strategy classified.1 entities classified.2
  (classified, entities, routing_strategy)

/-- The `try/except` of `route_request`: `attempt` is the outcome of the try
block (`.error` models an exception raised inside it, e.g. by a non-string
input at runtime); any failure is replaced by the pinned fallback decision.
The return type is `RoutingDecision`, not `Except`: no exception reaches the
caller. -/
def route_request_sem
    (attempt : Except String ((UserIntent × Rat) × EntityBag × RoutingStrategy))
    (user_input : String) (location : Option String) (now : String) : RoutingDecision :=
  match attempt with
  | .ok (classified, entities, routing_strategy) =>
    { intent := classified.1.value, confidence := classified.2, entities := entities,
      routing_strategy := routing_strategy, user_input := user_input,
      processing_timestamp := now, fallback := false }
  | .error _ => create_fallback_routing user_input location now

/-- `route_request` on the embedded (total) body. -/
def route_request (user_input : String) (location : Option String) (now : String) :
    RoutingDecision :=
  route_request_sem (.ok (route_request_body user_input location)) user_input location now

example :
    (route_request "is there an outbreak in texas" none "t").intent = "outbreak_status" := by
  decide

/-! ## Workflow data model (workflow.py)

The three collaborators return dicts; the embedding gives each the structure
of the fields the orchestrator reads, every key the code reads with
`.get(k, default)` being an `Option` field.  Collaborator calls can fail:
a call is a function into `Except String _`, the error carrying `str(e)`. -/

/-- One entry of `trends` (e.g. `trends["cases"]`). -/
structure TrendData where
  growth_rate : Option Rat
deriving DecidableEq

/-- Payload attached under `rumor_validation` (opaque to the orchestrator). -/
structure RumorValidation where
  results : List (String × String)
deriving DecidableEq

/-- The risk-analysis dict consumed (and, on failure, fabricated) by the
workflow. -/
structure RiskAnalysis where
  location : Option String
  risk_score : Option Rat
  risk_level : Option String
  confidence : Option Rat
  insights : List String
  trends : List (String × TrendData)
  error : Option String
  rumor_validation : Option RumorValidation
deriving DecidableEq

/-- The nested `risk_context` dict of a guidance result. -/
structure RiskContext where
  risk_level : Option String
deriving DecidableEq

/-- The guidance dict consumed (and, on failure, fabricated) by the
workflow. -/
structure Guidance where
  location : Option String
  target_audience : Option String
  risk_level : Option String
  key_recommendations : List String
  risk_context : Option RiskContext
  error : Option String
deriving DecidableEq

/-- One entry of `resource_projections`. -/
structure Projection where
  priority : Option String
  utilization_projected : Option Rat
deriving DecidableEq

/-- One entry of `procurement_recommendations`. -/
structure Procurement where
  resource : Option String
  timeline : Option String
deriving DecidableEq

/-- The resource-report dict consumed (and, on failure, fabricated) by the
workflow.  `resource_projections` is `Option` because the code tests key
membership (`"resource_projections" in resource_report`). -/
structure ResourceReport where
  location : Option String
  risk_context : Option RiskAnalysis
  status : Option String
  recommendations : List String
  resource_projections : Option (List (String × Projection))
  procurement_recommendations : List Procurement
  error : Option String
deriving DecidableEq

/-! ## Final report structures (workflow.py `_compile_final_report`) -/

structure IntelligenceSummary where
  threat_level : String
  risk_score : String
  location : Option String
  key_findings : List String
  critical_actions : List String
  confidence : Rat
deriving DecidableEq

structure ActionItem where
  priority : String
  action : String
  owner : String
  timeline : String
deriving DecidableEq

structure RiskIndicators where
  overall_risk : Rat
  case_trends : String
  hospital_capacity : String
  public_readiness : String
deriving DecidableEq

structure KeyMetrics where
  confidence_level : String
  data_freshness : String
  coverage_area : String
deriving DecidableEq

structure ExecutiveDashboard where
  risk_indicators : RiskIndicators
  key_metrics : KeyMetrics
  action_items : List ActionItem
  timeline : List (String × String)
deriving DecidableEq

structure ReportComponents where
  risk_assessment : RiskAnalysis
  public_guidance : Guidance
  resource_allocation : ResourceReport
deriving DecidableEq

structure Contacts where
  local_health_department : String
  emergency_management : String
  cdc_eoc : String
  phoenix_support : String
deriving DecidableEq

structure FinalReport where
  workflow_id : String
  generation_timestamp : String
  location : Option String
  phoenix_intelligence_summary : IntelligenceSummary
  components : ReportComponents
  executive_dashboard : ExecutiveDashboard
  next_steps : List String
  validity_period : String
  contact_information : Contacts
deriving DecidableEq

/-! ## Report compiler (workflow.py private helpers) -/

/-- `_extract_key_findings`: risk-level line, first two insights, one
aggregated critical-shortage line naming all CRITICAL-priority resources (if
any), capped at 5. -/
def extract_key_findings (risk_analysis : RiskAnalysis) (_guidance : Guidance)
    (resource_report : ResourceReport) : List String :=
  let findings := ["Outbreak risk level: " ++ risk_analysis.risk_level.getD "UNKNOWN"]
  let findings := findings ++ risk_analysis.insights.take 2
  let findings :=
    match resource_report.resource_projections with
    | none => findings
    | some projections =>
      let critical_shortages :=
        (projections.filter (fun (p : String × Projection) =>
          p.2.priority = some "CRITICAL")).map Prod.fst
      if critical_shortages.isEmpty then findings
      else findings ++
        ["Critical resource shortages: " ++ String.intercalate ", " critical_shortages]
  findings.take 5

/-- `_extract_critical_actions`: first three recommendations plus up to two
procurements whose timeline starts (case-insensitively) with "immediate",
capped at 5. -/
def extract_critical_actions (guidance : Guidance) (resource_report : ResourceReport) :
    List String :=
  let actions := guidance.key_recommendations.take 3
  let urgent_procurements :=
    resource_report.procurement_recommendations.filter
      (fun p => (lowerStr (p.timeline.getD "")).startsWith "immediate")
  let actions := actions ++
    (urgent_procurements.take 2).map (fun p => "URGENT: Procure " ++ p.resource.getD "resources")
  actions.take 5

/-- `_extract_trend_indicator`. -/
def extract_trend_indicator (risk_analysis : RiskAnalysis) (trend_type : String) : String :=
  let trend_data := (risk_analysis.trends.lookup trend_type).getD { growth_rate := none }
  let growth_rate := trend_data.growth_rate.getD 0
  if (0.2 : Rat) < growth_rate then "📈 RAPIDLY INCREASING"
  else if (0.1 : Rat) < growth_rate then "↗️ INCREASING"
  else if (-0.1 : Rat) < growth_rate then "➡️ STABLE"
  else "↘️ DECREASING"

/-- `_extract_capacity_indicator`. -/
def extract_capacity_indicator (resource_report : ResourceReport) : String :=
  let projections := resource_report.resource_projections.getD []
  match projections.lookup "icu_beds" with
  | some proj =>
    let utilization := proj.utilization_projected.getD 0
    if (0.9 : Rat) < utilization then "🔴 CRITICAL STRAIN"
    else if (0.8 : Rat) < utilization then "🟠 HIGH UTILIZATION"
    else if (0.7 : Rat) < utilization then "🟡 MODERATE LOAD"
    else "🟢 ADEQUATE CAPACITY"
  | none => "❓ UNKNOWN"

/-- `_assess_public_readiness`. -/
def assess_public_readiness (guidance : Guidance) : String :=
  let risk_level :=
    match guidance.risk_context with
    | some rc => rc.risk_level.getD "LOW"
    | none => "LOW"
  if risk_level = "CRITICAL" then "🔴 EMERGENCY PROTOCOLS"
  else if risk_level = "HIGH" then "🟠 ENHANCED READINESS"
  else if risk_level = "MODERATE" then "🟡 STANDARD READINESS"
  else if risk_level = "LOW" then "🟢 ROUTINE STATUS"
  else "❓ UNKNOWN"

/-- `_create_action_items`.  The guidance risk level is read without a
default (`None` when absent). -/
def create_action_items (guidance : Guidance) (resource_report : ResourceReport) :
    List ActionItem :=
  let guidance_level :=
    match guidance.risk_context with
    | some rc => rc.risk_level
    | none => none
  let actions :=
    if guidance_level = some "CRITICAL" || guidance_level = some "HIGH" then
      [{ priority := "HIGH", action := "Activate emergency response protocols",
         owner := "Emergency Management", timeline := "Immediate" }]
    else []
  actions ++ (resource_report.procurement_recommendations.take 3).map (fun p =>
    { priority := "MEDIUM", action := "Procure " ++ p.resource.getD "resources",
      owner := "Procurement Team", timeline := p.timeline.getD "TBD" })

/-- `_create_response_timeline`: fixed tables, unknown levels fall back to
MODERATE. -/
def create_response_timeline (risk_analysis : RiskAnalysis) : List (String × String) :=
  let risk_level := risk_analysis.risk_level.getD "LOW"
  let moderate := [("24_hours", "Review response plans"), ("1_week", "Staff training"),
                   ("2_weeks", "Equipment checks")]
  if risk_level = "CRITICAL" then
    [("immediate", "Activate emergency protocols"), ("24_hours", "Resource mobilization"),
     ("72_hours", "Full response deployment")]
  else if risk_level = "HIGH" then
    [("immediate", "Enhanced monitoring"), ("24_hours", "Prepare response teams"),
     ("1_week", "Resource positioning")]
  else if risk_level = "MODERATE" then moderate
  else if risk_level = "LOW" then
    [("1_week", "Routine monitoring"), ("1_month", "Preparedness review")]
  else moderate

/-- `_generate_next_steps`: 3-item baseline, two urgent items prepended for
CRITICAL/HIGH. -/
def generate_next_steps (risk_analysis : RiskAnalysis) : List String :=
  let risk_level := risk_analysis.risk_level.getD "LOW"
  let next_steps := ["Monitor outbreak intelligence updates",
                     "Review and update response plans",
                     "Coordinate with partner agencies"]
  if risk_level = "CRITICAL" || risk_level = "HIGH" then
    "Activate emergency operations center" :: "Issue public health alerts" :: next_steps
  else next_steps

/-- `_get_emergency_contacts`. -/
def get_emergency_contacts (location : String) : Contacts :=
  { local_health_department := location ++ " Health Department"
    emergency_management := location ++ " Emergency Management"
    cdc_eoc := "CDC Emergency Operations Center"
    phoenix_support := "Phoenix Outbreak Intelligence Support" }

/-- `_create_intelligence_summary`. -/
def create_intelligence_summary (risk_analysis : RiskAnalysis) (guidance : Guidance)
    (resource_report : ResourceReport) : IntelligenceSummary :=
  let risk_score := risk_analysis.risk_score.getD 0
  let risk_level := risk_analysis.risk_level.getD "UNKNOWN"
  let threat :=
    if risk_level = "CRITICAL" then ("🔴", "IMMEDIATE ACTION REQUIRED")
    else if risk_level = "HIGH" then ("🟠", "ENHANCED RESPONSE NEEDED")
    else if risk_level = "MODERATE" then ("🟡", "INCREASED VIGILANCE")
    else ("🟢", "ROUTINE MONITORING")
  { threat_level := threat.1 ++ " " ++ threat.2
    risk_score := toString risk_score ++ "/100"
    location := risk_analysis.location
    key_findings := extract_key_findings risk_analysis guidance resource_report
    critical_actions := extract_critical_actions guidance resource_report
    confidence := risk_analysis.confidence.getD 0.5 }

/-- `_create_executive_dashboard`.  Python renders the confidence with
`f"{c*100:.0f}%"`; number-to-string rendering is abstracted by `toString`
of the rounded value. -/
def create_executive_dashboard (risk_analysis : RiskAnalysis) (guidance : Guidance)
    (resource_report : ResourceReport) : ExecutiveDashboard :=
  { risk_indicators :=
      { overall_risk := risk_analysis.risk_score.getD 0
        case_trends := extract_trend_indicator risk_analysis "cases"
        hospital_capacity := extract_capacity_indicator resource_report
        public_readiness := assess_public_readiness guidance }
    key_metrics :=
      { confidence_level := toString (round ((risk_analysis.confidence.getD 0.5) * 100)) ++ "%"
        data_freshness := "Real-time"
        coverage_area := risk_analysis.location.getD "Unknown" }
    action_items := create_action_items guidance resource_report
    timeline := create_response_timeline risk_analysis }

/-- `_compile_final_report`. -/
def compile_final_report (workflow_id now : String) (risk_analysis : RiskAnalysis)
    (guidance : Guidance) (resource_report : ResourceReport) : FinalReport :=
  { workflow_id := workflow_id
    generation_timestamp := now
    location := risk_analysis.location
    phoenix_intelligence_summary :=
      create_intelligence_summary risk_analysis guidance resource_report
    components :=
      { risk_assessment := risk_analysis
        public_guidance := guidance
        resource_allocation := resource_report }
    executive_dashboard := create_executive_dashboard risk_analysis guidance resource_report
    next_steps := generate_next_steps risk_analysis
    validity_period := "7 days"
    contact_information := get_emergency_contacts (risk_analysis.location.getD "") }

/-! ## Workflow orchestration (workflow.py `PhoenixWorkflow`) -/

/-- The `WorkflowStage` enum. -/
inductive WorkflowStage where
  | INITIALIZATION
  | DATA_COLLECTION
  | RISK_ASSESSMENT
  | GUIDANCE_GENERATION
  | RESOURCE_PLANNING
  | REPORT_COMPILATION
  | FINALIZATION
deriving DecidableEq

/-- `.value` of `WorkflowStage`. -/
def WorkflowStage.value : WorkflowStage → String
  | .INITIALIZATION => "initialization"
  | .DATA_COLLECTION => "data_collection"
  | .RISK_ASSESSMENT => "risk_assessment"
  | .GUIDANCE_GENERATION => "guidance_generation"
  | .RESOURCE_PLANNING => "resource_planning"
  | .REPORT_COMPILATION => "report_compilation"
  | .FINALIZATION => "finalization"

/-- The data-intelligence collaborator (`self.data_agent` when not `None`). -/
structure DataAgent where
  analyze_outbreak_risk : String → Except String RiskAnalysis
  validate_rumors : List String → String → Except String RumorValidation

/-- The public-guidance collaborator. -/
structure GuidanceAgent where
  generate_public_guidance : RiskAnalysis → String → String → Except String Guidance

/-- The resource-planning collaborator. -/
structure ResourceAgent where
  generate_resource_report : RiskAnalysis → String → Except String ResourceReport

/-- The orchestrator's collaborator slots (each `None`-able, as in
`__init__`). -/
structure PhoenixWorkflow where
  data_agent : Option DataAgent
  guidance_agent : Option GuidanceAgent
  resource_agent : Option ResourceAgent

/-- The per-execution context dict stored in `self.workflow_state`.  Keys the
code only adds later (`current_stage`, `status`, ...) are `Option` fields
initialised to `none`. -/
structure WorkflowContext where
  workflow_id : String
  location : String
  start_time : String
  data_intelligence_available : Bool
  public_guidance_available : Bool
  resource_planning_available : Bool
  current_stage : Option String
  stage_timestamp : Option String
  status : Option String
  error : Option String
  error_time : Option String
  completion_time : Option String
deriving DecidableEq

/-- `_update_stage`: writes `current_stage` only when the workflow id is
already a key of the state store (modelled, for the one fresh id of the
execution, as `Option WorkflowContext`); a missing key makes the update a
silent no-op.  `log` is instrumentation recording the `current_stage`
values actually written. -/
def update_stage (store : Option WorkflowContext) (log : List String)
    (stage : WorkflowStage) (now : String) : Option WorkflowContext × List String :=
  match store with
  | some ctx =>
    (some { ctx with current_stage := some stage.value, stage_timestamp := some now },
     log ++ [stage.value])
  | none => (store, log)

/-- `_initialize_workflow`: builds the context, stores it (unconditionally),
then raises `ValueError("Not all required agents are available")` when a
collaborator slot is `None`. -/
def initialize_workflow (w : PhoenixWorkflow) (workflow_id location now : String) :
    WorkflowContext × Except String WorkflowContext :=
  let context : WorkflowContext :=
    { workflow_id := workflow_id
      location := location
      start_time := now
      data_intelligence_available := w.data_agent.isSome
      public_guidance_available := w.guidance_agent.isSome
      resource_planning_available := w.resource_agent.isSome
      current_stage := none
      stage_timestamp := none
      status := none
      error := none
      error_time := none
      completion_time := none }
  (context,
    if w.data_agent.isSome && w.guidance_agent.isSome && w.resource_agent.isSome then
      .ok context
    else
      .error "Not all required agents are available")

/-- The keyword list of `_extract_potential_rumors`. -/
def rumor_keywords : List String := ["rumor", "claim", "report", "social media", "unverified"]

/-- `_extract_potential_rumors`: insights containing a rumor keyword
(case-insensitively), first three. -/
def extract_potential_rumors (insights : List String) : List String :=
  (insights.filter (fun insight =>
    rumor_keywords.any (fun k => containsSub k.data (lowerStr insight).data))).take 3

/-- The fixed fallback payload of `_execute_risk_assessment`'s `except`
branch. -/
def risk_fallback (location msg : String) : RiskAnalysis :=
  { location := some location
    risk_score := some 25.0
    risk_level := some "MODERATE"
    confidence := some 0.5
    insights := ["Risk assessment failed - using default moderate risk level"]
    trends := []
    error := some msg
    rumor_validation := none }

/-- `_execute_risk_assessment`: risk call plus optional rumor validation,
both inside one `try`; any failure yields the fixed MODERATE fallback.  (A
`None` data agent would raise an `AttributeError` inside the same `try`;
its message is abbreviated here, and the path is unreachable after a
successful initialization.) -/
def execute_risk_assessment (w : PhoenixWorkflow) (location : String) : RiskAnalysis :=
  match w.data_agent with
  | none => risk_fallback location "NoneType object has no attribute analyze_outbreak_risk"
  | some agent =>
    match agent.analyze_outbreak_risk location with
    | .error e => risk_fallback location e
    | .ok risk_analysis =>
      let rumors_to_check := extract_potential_rumors risk_analysis.insights
      if rumors_to_check.isEmpty then risk_analysis
      else
        match agent.validate_rumors rumors_to_check location with
        | .error e => risk_fallback location e
        | .ok rv => { risk_analysis with rumor_validation := some rv }

/-- `_generate_public_guidance`: guidance call with its basic-guidance
fallback. -/
def generate_public_guidance_step (w : PhoenixWorkflow) (risk_analysis : RiskAnalysis)
    (location target_audience : String) : Guidance :=
  let fallback := fun (e : String) =>
    { location := some location
      target_audience := some target_audience
      risk_level := some (risk_analysis.risk_level.getD "MODERATE")
      key_recommendations := ["Follow local health department guidance",
                              "Monitor official health communications",
                              "Contact healthcare providers with questions"]
      risk_context := none
      error := some e : Guidance }
  match w.guidance_agent with
  | none => fallback "NoneType object has no attribute generate_public_guidance"
  | some agent =>
    match agent.generate_public_guidance risk_analysis location target_audience with
    | .ok g => g
    | .error e => fallback e

/-- `_generate_resource_report`: resource call with its minimal fallback.
`generate_pdf` is accepted and, as in the code, not forwarded. -/
def generate_resource_report_step (w : PhoenixWorkflow) (risk_analysis : RiskAnalysis)
    (location : String) (_generate_pdf : Bool) : ResourceReport :=
  let fallback := fun (e : String) =>
    { location := some location
      risk_context := some risk_analysis
      status := some "UNABLE_TO_ASSESS"
      recommendations := ["Contact local emergency management"]
      resource_projections := none
      procurement_recommendations := []
      error := some e : ResourceReport }
  match w.resource_agent with
  | none => fallback "NoneType object has no attribute generate_resource_report"
  | some agent =>
    match agent.generate_resource_report risk_analysis location with
    | .ok r => r
    | .error e => fallback e

/-- `_handle_workflow_error`: mark the stored context FAILED with the error
message (no-op when the id is absent from the store). -/
def handle_workflow_error (store : Option WorkflowContext) (e now : String) :
    Option WorkflowContext :=
  match store with
  | some ctx => some { ctx with status := some "FAILED", error := some e, error_time := some now }
  | none => none

/-- `_finalize_workflow`: mark the stored context COMPLETED. -/
def finalize_workflow (store : Option WorkflowContext) (now : String) :
    Option WorkflowContext :=
  match store with
  | some ctx => some { ctx with status := some "COMPLETED", completion_time := some now }
  | none => none

/-- Result of one `execute_full_analysis` run: the returned report or the
re-raised error, the final state-store entry for the run's workflow id, and
the instrumentation log of `current_stage` writes. -/
structure WorkflowResult where
  result : Except String FinalReport
  store : Option WorkflowContext
  stage_log : List String

/-- `execute_full_analysis`.  The fresh, time-derived workflow id is not a
key of `workflow_state` when the run starts, so the store for it begins as
`none` and the INITIALIZATION stage update before `_initialize_workflow` is
a silent no-op.  An initialization error is handled by
`_handle_workflow_error` and re-raised; per-stage collaborator failures are
absorbed by the stage executors above. -/
def execute_full_analysis (w : PhoenixWorkflow) (location target_audience : String)
    (generate_pdf : Bool) (workflow_id now : String) : WorkflowResult :=
  let store : Option WorkflowContext := none
  let s1 := update_stage store [] .INITIALIZATION now
  let init := initialize_workflow w workflow_id location now
  let store := some init.1
  match init.2 with
  | .error e => { result := .error e, store := handle_workflow_error store e now, stage_log := s1.2 }
  | .ok _context =>
    let s2 := update_stage store s1.2 .DATA_COLLECTION now
    let risk_analysis := execute_risk_assessment w location
    let s3 := update_stage s2.1 s2.2 .GUIDANCE_GENERATION now
    let guidance_results := generate_public_guidance_step w risk_analysis location target_audience
    let s4 := update_stage s3.1 s3.2 .RESOURCE_PLANNING now
    let resource_report := generate_resource_report_step w risk_analysis location generate_pdf
    let s5 := update_stage s4.1 s4.2 .REPORT_COMPILATION now
    let final_report := compile_final_report workflow_id now risk_analysis guidance_results resource_report
    let s6 := update_stage s5.1 s5.2 .FINALIZATION now
    { result := .ok final_report
      store := finalize_workflow s6.1 now
      stage_log := s6.2 }

/-! ## Helper lemmas -/

/-- `bestBy` returns one of its candidates. -/
theorem bestBy_mem : ∀ (l : List (UserIntent × Rat)) (b : UserIntent × Rat),
    bestBy b l ∈ b :: l := by
  intro l
  induction l with
  | nil => intro b; simp [bestBy]
  | cons x xs ih =>
    intro b
    have h := ih (if b.2 < x.2 then x else b)
    rw [bestBy]
    rcases List.mem_cons.mp h with h1 | h1
    · rw [h1]
      split
      · exact List.mem_cons_of_mem _ (List.mem_cons_self _ _)
      · exact List.mem_cons_self _ _
    · exact List.mem_cons_of_mem _ (List.mem_cons_of_mem _ h1)

/-- Every entry of `intentScores` has a strictly positive score. -/
theorem intentScores_pos (user_input : String) (p : UserIntent × Rat)
    (h : p ∈ intentScores user_input) : 0 < p.2 := by
  have := List.of_mem_filter h
  simpa using this

/-! ## Claim C1 -/

/-- Claim C1: `route_request` is total — in the embedding its result type is
`RoutingDecision`, never an exception — and whenever the try-block body
fails, the result is the pinned fallback decision: intent
`general_information`, confidence `0.1`, entities whose locations are
`[location_context]` when a context is provided and `[]` otherwise (all
other categories absent), the default strategy
(orchestrator / general_inquiry), and `fallback = true`. -/
theorem route_request_pinned_fallback (e user_input : String)
    (location : Option String) (now : String) :
    route_request_sem (.error e) user_input location now
        = create_fallback_routing user_input location now
      ∧ (create_fallback_routing user_input location now).intent = "general_information"
      ∧ (create_fallback_routing user_input location now).confidence = 0.1
      ∧ (create_fallback_routing user_input location now).entities.locations = location.toList
      ∧ (create_fallback_routing user_input location now).entities.dates = []
      ∧ (create_fallback_routing user_input location now).entities.health_conditions = []
      ∧ (create_fallback_routing user_input location now).entities.facility_types = []
      ∧ (create_fallback_routing user_input location now).entities.urgency_indicators = []
      ∧ (create_fallback_routing user_input location now).routing_strategy =
          { primary_agent := some "orchestrator", workflow_type := "general_inquiry",
            additional_agents := ["data_intelligence"], parallel_processing := false,
            priority_level := "normal" }
      ∧ (create_fallback_routing user_input location now).fallback = true :=
  ⟨rfl, rfl, rfl, rfl, rfl, rfl, rfl, rfl, rfl, rfl⟩

/-! ## Claim C9 -/

/-- Characterization of the priority level produced by
`_determine_routing_strategy`: the later facility/location adjustments never
touch it. -/
theorem priority_level_eq (intent : UserIntent) (entities : EntityBag) (confidence : Rat) :
    (determine_routing_strategy intent entities confidence).priority_level =
      if intent = .emergency_alert then "critical"
      else if !entities.urgency_indicators.isEmpty || decide ((0.9 : Rat) < confidence)
      then "high"
      else "normal" := by
  unfold determine_routing_strategy
  cases intent <;> dsimp only <;> split <;> simp_all <;> split <;> simp_all <;> split <;> simp_all

/-- Claim C9: for every `(intent, confidence, entities)` input to
`_determine_routing_strategy`, the priority level is `"high"` whenever the
urgency indicators are non-empty or the confidence exceeds `0.9` (for
non-emergency intents), and intent `emergency_alert` forces `"critical"`
regardless of urgency indicators or confidence. -/
theorem priority_level_rules (intent : UserIntent) (entities : EntityBag) (confidence : Rat) :
    (intent = .emergency_alert →
        (determine_routing_strategy intent entities confidence).priority_level = "critical")
      ∧ (intent ≠ .emergency_alert →
          (entities.urgency_indicators ≠ [] ∨ (0.9 : Rat) < confidence) →
          (determine_routing_strategy intent entities confidence).priority_level = "high") := by
  constructor
  · intro h
    rw [priority_level_eq, if_pos h]
  · intro h hcond
    rw [priority_level_eq, if_neg h, if_pos]
    rcases hcond with h1 | h1
    · simp [List.isEmpty_iff, h1]
    · simp [h1]

/-- Witness for C9 at concrete inputs: an emergency alert is `"critical"`,
and an urgent non-emergency request is `"high"`. -/
theorem priority_level_rules_witness :
    (determine_routing_strategy .emergency_alert
        ⟨[], [], [], [], []⟩ 0.5).priority_level = "critical"
      ∧ (determine_routing_strategy .outbreak_status
          ⟨[], [], [], [], ["urgent"]⟩ 0.5).priority_level = "high" :=
  ⟨(priority_level_rules .emergency_alert ⟨[], [], [], [], []⟩ 0.5).1 rfl,
   (priority_level_rules .outbreak_status ⟨[], [], [], [], ["urgent"]⟩ 0.5).2
     (by decide) (.inl (by decide))⟩

/-! ## Claim C4 -/

/-- Claim C4: for every input text for which no intent rule scores greater
than zero, `_classify_intent` returns exactly
`(GENERAL_INFORMATION, 0.3)`. -/
theorem classify_no_positive_score (user_input : String)
    (h : ∀ p ∈ intent_patterns, ¬ 0 < scoreRule p.2 (lowerStr user_input)) :
    classify_intent user_input = (.general_information, 0.3) := by
  have hempty : intentScores user_input = [] := by
    unfold intentScores
    refine List.filter_eq_nil_iff.mpr ?_
    intro a ha
    simp only [List.mem_map] at ha
    obtain ⟨p, hp, rfl⟩ := ha
    simpa using h p hp
  unfold classify_intent
  rw [hempty]

/-- Witness for C4 at the empty string: no rule scores above zero on `""`
and the classifier returns the pinned default. -/
theorem classify_no_positive_score_witness :
    (∀ p ∈ intent_patterns, ¬ 0 < scoreRule p.2 (lowerStr ""))
      ∧ classify_intent "" = (.general_information, 0.3) :=
  ⟨by decide, classify_no_positive_score "" (by decide)⟩

/-! ## Claim C5 -/

/-- Claim C5: for every input text (including the empty string) the
confidence returned by `_classify_intent` lies in `[0, 1]`, and in the
matched case it equals `min(score / 15.0, 1.0)` where `score` is the best
intent's weighted pattern score. -/
theorem classify_confidence_in_unit_interval (user_input : String) :
    0 ≤ (classify_intent user_input).2 ∧ (classify_intent user_input).2 ≤ 1
      ∧ ∀ x xs, intentScores user_input = x :: xs →
          (classify_intent user_input).2 = min ((bestBy x xs).2 / 15) 1 := by
  refine ⟨?_, ?_, ?_⟩
  · rcases hs : intentScores user_input with _ | ⟨x, xs⟩
    · simp only [classify_intent, hs]
      norm_num
    · simp only [classify_intent, hs]
      have hmem : bestBy x xs ∈ intentScores user_input := by
        rw [hs]; exact bestBy_mem xs x
      have hpos := intentScores_pos user_input _ hmem
      have h15 : (0 : Rat) ≤ (bestBy x xs).2 / 15 := by positivity
      exact le_min h15 (by norm_num)
  · rcases hs : intentScores user_input with _ | ⟨x, xs⟩
    · simp only [classify_intent, hs]
      norm_num
    · simp only [classify_intent, hs]
      exact min_le_right _ _
  · intro x xs h
    simp only [classify_intent, h]

/-- Witness for C5 at the concrete input `"outbreak"`, whose score list is
`[(outbreak_status, 2)]`. -/
theorem classify_confidence_in_unit_interval_witness :
    (0 ≤ (classify_intent "outbreak").2 ∧ (classify_intent "outbreak").2 ≤ 1)
      ∧ intentScores "outbreak" = [(.outbreak_status, 2)]
      ∧ (classify_intent "outbreak").2 = min (((.outbreak_status, (2 : Rat)) : UserIntent × Rat).2 / 15) 1 := by
  have h := classify_confidence_in_unit_interval "outbreak"
  have hs : intentScores "outbreak" = [(.outbreak_status, 2)] := by decide
  exact ⟨⟨h.1, h.2.1⟩, hs, h.2.2 _ [] hs⟩

/-! ## Claim C7 (corrected)

The claim speaks of inputs equal to "a cataloged exact-match string of some
intent rule".  No rule of the shipped catalog defines any `exact_matches`
entry (every rule body in `_load_intent_patterns` has only `keywords`,
`phrases` and `weight`, and the classifier reads
`patterns.get("exact_matches", [])`), so no such input exists: the
counterexample below refutes the claim's presupposition.  The scoring
mechanism itself does include the +10 bonus for a rule that carries an
exact-match string, and the confidence formula holds in the matched case;
that is the amended statement. -/

/-- Counterexample for C7: no intent rule of the catalog carries any
exact-match string, so no input text is "exactly equal to a cataloged
exact-match string of some intent rule" — the claim quantifies over an
empty set of inputs and the +10 branch is unreachable from the catalog. -/
theorem no_cataloged_exact_matches :
    ¬ ∃ p, p ∈ intent_patterns ∧ p.2.exact_matches ≠ [] := by decide

/-- Amended C7: for any rule that does carry an exact-match string equal to
the stripped lower-cased input, the rule's score includes the +10 bonus on
top of its keyword and phrase scores; and (as in the claim's second half)
the returned confidence in the matched case equals `min(score/15, 1)`. -/
theorem score_includes_exact_bonus (rule : PatternRule) (user_input : String)
    (h : stripStr (lowerStr user_input) ∈ rule.exact_matches) :
    keywordScore rule (lowerStr user_input) + phraseScore rule (lowerStr user_input) + 10
        ≤ scoreRule rule (lowerStr user_input)
      ∧ ∀ x xs, intentScores user_input = x :: xs →
          (classify_intent user_input).2 = min ((bestBy x xs).2 / 15) 1 := by
  constructor
  · have hne : (rule.exact_matches.filter
        (fun e => e = stripStr (lowerStr user_input))) ≠ [] := by
      intro hnil
      have : stripStr (lowerStr user_input) ∈ rule.exact_matches.filter
          (fun e => e = stripStr (lowerStr user_input)) :=
        List.mem_filter.mpr ⟨h, by simp⟩
      rw [hnil] at this
      exact absurd this (List.not_mem_nil _)
    have hlen : 1 ≤ (rule.exact_matches.filter
        (fun e => e = stripStr (lowerStr user_input))).length :=
      Nat.one_le_iff_ne_zero.mpr (fun h0 => hne (List.eq_nil_of_length_eq_zero h0))
    have hbonus : (10 : Rat) ≤ exactScore rule (lowerStr user_input) := by
      unfold exactScore
      have : (1 : Rat) ≤ ((rule.exact_matches.filter
          (fun e => e = stripStr (lowerStr user_input))).length : Rat) := by
        exact_mod_cast hlen
      nlinarith
    unfold scoreRule
    linarith
  · intro x xs hxs
    simp only [classify_intent, hxs]

/-- Witness for the amended C7 at a synthetic rule carrying the exact-match
string `"hello"` and the input `"  Hello "`. -/
theorem score_includes_exact_bonus_witness :
    stripStr (lowerStr "  Hello ") ∈
        (PatternRule.mk [] [] ["hello"] 1).exact_matches
      ∧ keywordScore (PatternRule.mk [] [] ["hello"] 1) (lowerStr "  Hello ")
          + phraseScore (PatternRule.mk [] [] ["hello"] 1) (lowerStr "  Hello ") + 10
          ≤ scoreRule (PatternRule.mk [] [] ["hello"] 1) (lowerStr "  Hello ") :=
  ⟨by decide,
   (score_includes_exact_bonus (PatternRule.mk [] [] ["hello"] 1) "  Hello " (by decide)).1⟩

/-! ## Claim C8 -/

/-- Claim C8: when the resource report's projections flag exactly two
resources with priority CRITICAL, `_extract_key_findings` produces one
aggregated shortage entry naming both resources (not one entry per
resource) — concretely, the findings are the risk-level line, the first two
insights, and a single final `"Critical resource shortages: r1, r2"` line —
and the total number of findings is at most 5. -/
theorem critical_shortages_one_aggregated_line
    (risk_analysis : RiskAnalysis) (guidance : Guidance) (resource_report : ResourceReport)
    (projections : List (String × Projection)) (r1 r2 : String)
    (hp : resource_report.resource_projections = some projections)
    (hc : (projections.filter (fun (p : String × Projection) =>
        p.2.priority = some "CRITICAL")).map Prod.fst = [r1, r2]) :
    extract_key_findings risk_analysis guidance resource_report
        = ("Outbreak risk level: " ++ risk_analysis.risk_level.getD "UNKNOWN")
            :: (risk_analysis.insights.take 2
              ++ ["Critical resource shortages: " ++ (r1 ++ ", " ++ r2)])
      ∧ (extract_key_findings risk_analysis guidance resource_report).length ≤ 5 := by
  have hjoin : String.intercalate ", " [r1, r2] = r1 ++ ", " ++ r2 := by
    simp [String.intercalate, String.intercalate.go]
  have heq : extract_key_findings risk_analysis guidance resource_report
      = ("Outbreak risk level: " ++ risk_analysis.risk_level.getD "UNKNOWN")
          :: (risk_analysis.insights.take 2
            ++ ["Critical resource shortages: " ++ (r1 ++ ", " ++ r2)]) := by
    unfold extract_key_findings
    rw [hp]
    simp only [hc, hjoin]
    have hlen : (("Outbreak risk level: " ++ risk_analysis.risk_level.getD "UNKNOWN")
        :: (risk_analysis.insights.take 2
          ++ ["Critical resource shortages: " ++ (r1 ++ ", " ++ r2)])).length ≤ 5 := by
      simp only [List.length_cons, List.length_append, List.length_nil]
      have := List.length_take_le 2 risk_analysis.insights
      omega
    exact List.take_of_length_le hlen
  refine ⟨heq, ?_⟩
  rw [heq]
  simp only [List.length_cons, List.length_append, List.length_nil]
  have := List.length_take_le 2 risk_analysis.insights
  omega

/-- Witness for C8 at a concrete resource report flagging `icu_beds` and
`ventilators` CRITICAL. -/
theorem critical_shortages_one_aggregated_line_witness :
    extract_key_findings
        { location := some "Ada", risk_score := some 70, risk_level := some "HIGH",
          confidence := some 0.8, insights := ["cases rising"], trends := [],
          error := none, rumor_validation := none }
        { location := none, target_audience := none, risk_level := none,
          key_recommendations := [], risk_context := none, error := none }
        { location := some "Ada", risk_context := none, status := none,
          recommendations := [],
          resource_projections := some
            [("icu_beds", { priority := some "CRITICAL", utilization_projected := some 0.95 }),
             ("masks", { priority := some "LOW", utilization_projected := none }),
             ("ventilators", { priority := some "CRITICAL", utilization_projected := none })],
          procurement_recommendations := [], error := none }
        = ["Outbreak risk level: HIGH", "cases rising",
           "Critical resource shortages: " ++ ("icu_beds" ++ ", " ++ "ventilators")]
      ∧ (extract_key_findings
          { location := some "Ada", risk_score := some 70, risk_level := some "HIGH",
            confidence := some 0.8, insights := ["cases rising"], trends := [],
            error := none, rumor_validation := none }
          { location := none, target_audience := none, risk_level := none,
            key_recommendations := [], risk_context := none, error := none }
          { location := some "Ada", risk_context := none, status := none,
            recommendations := [],
            resource_projections := some
              [("icu_beds", { priority := some "CRITICAL", utilization_projected := some 0.95 }),
               ("masks", { priority := some "LOW", utilization_projected := none }),
               ("ventilators", { priority := some "CRITICAL", utilization_projected := none })],
            procurement_recommendations := [], error := none }).length ≤ 5 :=
  critical_shortages_one_aggregated_line _ _ _ _ "icu_beds" "ventilators" rfl (by decide)

/-! ## Claim C6 (corrected)

The claim asserts the location patterns are case-sensitive on their
capitalization cues (`[A-Z][a-z]+ County` etc.) while the other four
categories match case-insensitively.  The code passes `re.IGNORECASE` to
*every* `re.findall` call of `_extract_entities`, the location block
included (router.py line 136), so a location candidate needs no
capitalization at all.  The counterexample extracts `"madison county"`, a
candidate containing no uppercase character, although every location regex
case-sensitively requires at least one `[A-Z]` position (or a capitalized
literal state name).  The amended statement: location patterns match
case-insensitively like the other categories — any all-lowercase letter run
of length at least 2 followed by `" county"` is extracted. -/

/-- A lowercase letter is a letter. -/
theorem isAlpha_of_isLower (c : Char) (h : c.isLower = true) : c.isAlpha = true := by
  unfold Char.isAlpha
  rw [h, Bool.or_true]

/-- `takeWhile isAlpha` over an all-letter run followed by a space stops at
the space and returns the run. -/
theorem takeWhile_alpha_append (w t : List Char) (h : ∀ c ∈ w, c.isAlpha = true) :
    (w ++ ' ' :: t).takeWhile Char.isAlpha = w := by
  have hsp : (' ').isAlpha = false := by decide
  induction w with
  | nil => simp [List.takeWhile_cons, hsp]
  | cons c cs ih =>
    have hc : c.isAlpha = true := h c (List.mem_cons_self _ _)
    simp [List.takeWhile_cons, hc, ih (fun x hx => h x (List.mem_cons_of_mem _ hx))]

/-- `dropWhile isAlpha` over an all-letter run followed by a space drops
exactly the run. -/
theorem dropWhile_alpha_append (w t : List Char) (h : ∀ c ∈ w, c.isAlpha = true) :
    (w ++ ' ' :: t).dropWhile Char.isAlpha = ' ' :: t := by
  have hsp : (' ').isAlpha = false := by decide
  induction w with
  | nil => simp [List.dropWhile_cons, hsp]
  | cons c cs ih =>
    have hc : c.isAlpha = true := h c (List.mem_cons_self _ _)
    simp [List.dropWhile_cons, hc, ih (fun x hx => h x (List.mem_cons_of_mem _ hx))]

/-- The County pattern matches any all-lowercase letter run of length at
least 2 followed by `" county"`, consuming the whole input. -/
theorem tryMatchP1_lowercase (w : List Char) (hl : ∀ c ∈ w, c.isLower = true)
    (h2 : 2 ≤ w.length) :
    tryMatchP1 none (w ++ (' ' :: "county".data)) = some (w ++ (' ' :: "county".data), []) := by
  have ha : ∀ c ∈ w, c.isAlpha = true := fun c hc => isAlpha_of_isLower c (hl c hc)
  rcases w with _ | ⟨c, cs⟩
  · simp at h2
  have hc : c.isAlpha = true := ha c (List.mem_cons_self _ _)
  have htake := takeWhile_alpha_append (c :: cs) "county".data ha
  have hdrop := dropWhile_alpha_append (c :: cs) "county".data ha
  have hci : ciAltBoundary ["county".data, "parish".data] "county".data
      = some ("county".data, []) := by decide
  rw [tryMatchP1.eq_def]
  simp only [boundaryBefore, Bool.not_true, Bool.false_eq_true, if_false, ite_false,
    List.cons_append]
  rw [List.cons_append] at htake hdrop
  simp only [hc, Bool.not_true, Bool.false_eq_true, if_false, htake, hdrop]
  have hlen : ¬ (c :: cs).length < 2 := by
    simp only [List.length_cons] at h2 ⊢
    omega
  simp only [if_neg hlen, hci, List.cons_append]

/-- One successful step of the `re.findall` scan. -/
theorem reFindAll_cons (tryM : Option Char → List Char → Option (List Char × List Char))
    (n : Nat) (prev : Option Char) (c : Char) (t : List Char) (cap rest : List Char)
    (hm : tryM prev (c :: t) = some (cap, rest)) :
    reFindAll tryM (n + 1) prev (c :: t)
      = cap.asString :: reFindAll tryM n cap.getLast? rest := by
  rw [reFindAll, hm]

/-- Counterexample for C6: the all-lowercase input `"madison county"`, which
carries none of the capitalization cues the location regexes would require
case-sensitively, is nevertheless extracted as a location (the code passes
`re.IGNORECASE` for the location patterns too). -/
theorem lowercase_location_extracted :
    "madison county" ∈ (extract_entities "madison county" none).locations
      ∧ "madison county".data.all (fun c => !c.isUpper) = true :=
  ⟨by decide, by decide⟩

/-- Amended C6: the location patterns match case-insensitively, exactly like
the other four categories: every all-lowercase letter run of length at least
2 followed by `" county"` is extracted into the locations of
`_extract_entities` applied to it. -/
theorem location_extraction_ignores_case (w : List Char)
    (hl : ∀ c ∈ w, c.isLower = true) (h2 : 2 ≤ w.length) :
    (w ++ (' ' :: "county".data)).asString
      ∈ (extract_entities (w ++ (' ' :: "county".data)).asString none).locations := by
  rcases w with _ | ⟨c, cs⟩
  · simp at h2
  have hm := tryMatchP1_lowercase (c :: cs) hl h2
  have hfind : findall tryMatchP1 ((c :: cs) ++ (' ' :: "county".data)).asString
      = ((c :: cs) ++ (' ' :: "county".data)).asString
          :: reFindAll tryMatchP1 (cs ++ (' ' :: "county".data)).length
              ((c :: cs) ++ (' ' :: "county".data)).getLast? [] := by
    unfold findall
    have hdata : (((c :: cs) ++ (' ' :: "county".data)).asString).data
        = (c :: cs) ++ (' ' :: "county".data) := rfl
    rw [hdata]
    rw [List.cons_append] at hm ⊢
    rw [List.length_cons]
    exact reFindAll_cons _ _ _ _ _ _ _ hm
  simp only [extract_entities]
  refine List.mem_dedup.mpr ?_
  refine List.mem_append_left _ ?_
  refine List.mem_append_left _ ?_
  refine List.mem_append_left _ ?_
  refine List.mem_append_left _ ?_
  rw [hfind]
  exact List.mem_cons_self _ _

/-- Witness for the amended C6 at the concrete run `"fairfax"`. -/
theorem location_extraction_ignores_case_witness :
    ("fairfax".data ++ (' ' :: "county".data)).asString
      ∈ (extract_entities ("fairfax".data ++ (' ' :: "county".data)).asString none).locations :=
  location_extraction_ignores_case "fairfax".data (by decide) (by decide)

/-! ## Claim C2 -/

/-- Claim C2: if any of the three collaborators is `None` when
`execute_full_analysis` runs, the call raises before any stage beyond
INITIALIZATION is recorded (here: no stage write is recorded at all), no
report is produced, the stored context is marked `status = "FAILED"` with
the error message, and the error is re-raised to the caller. -/
theorem missing_collaborator_is_fatal (w : PhoenixWorkflow)
    (location target_audience workflow_id now : String) (generate_pdf : Bool)
    (h : w.data_agent.isNone ∨ w.guidance_agent.isNone ∨ w.resource_agent.isNone) :
    (execute_full_analysis w location target_audience generate_pdf workflow_id now).result
        = .error "Not all required agents are available"
      ∧ (execute_full_analysis w location target_audience generate_pdf workflow_id now).stage_log
        = []
      ∧ ∃ ctx, (execute_full_analysis w location target_audience generate_pdf
            workflow_id now).store = some ctx
          ∧ ctx.status = some "FAILED"
          ∧ ctx.error = some "Not all required agents are available" := by
  have hcond : (w.data_agent.isSome && w.guidance_agent.isSome && w.resource_agent.isSome)
      = false := by
    rcases h with h1 | h1 | h1 <;> rw [Option.isNone_iff_eq_none] at h1 <;> simp [h1]
  refine ⟨?_, ?_,
      ⟨WorkflowContext.mk workflow_id location now w.data_agent.isSome
        w.guidance_agent.isSome w.resource_agent.isSome none none (some "FAILED")
        (some "Not all required agents are available") (some now) none, ?_, rfl, rfl⟩⟩ <;>
    simp only [execute_full_analysis, initialize_workflow, update_stage, hcond,
      Bool.false_eq_true, if_false, handle_workflow_error]

/-- Witness for C2: a workflow whose data-intelligence slot is `None`. -/
theorem missing_collaborator_is_fatal_witness :
    (execute_full_analysis
        { data_agent := none
          guidance_agent := some ⟨fun _ _ _ => .error "unused"⟩
          resource_agent := some ⟨fun _ _ => .error "unused"⟩ }
        "Ada" "general_public" true "PHX-WF-1" "t").result
        = .error "Not all required agents are available"
      ∧ (execute_full_analysis
          { data_agent := none
            guidance_agent := some ⟨fun _ _ _ => .error "unused"⟩
            resource_agent := some ⟨fun _ _ => .error "unused"⟩ }
          "Ada" "general_public" true "PHX-WF-1" "t").stage_log = [] :=
  have h := missing_collaborator_is_fatal
    { data_agent := none
      guidance_agent := some ⟨fun _ _ _ => .error "unused"⟩
      resource_agent := some ⟨fun _ _ => .error "unused"⟩ }
    "Ada" "general_public" "PHX-WF-1" "t" true (.inl rfl)
  ⟨h.1, h.2.1⟩

/-! ## Claim C3 -/

/-- Claim C3: if the risk collaborator raises during the risk-assessment
step, `execute_full_analysis` does not abort: the risk component of the
produced report equals the fixed fallback payload (`risk_level "MODERATE"`,
`risk_score 25.0`, confidence `0.5`, `error` carrying the exception message,
and the generic insights note), and the guidance, resource and final-report
sections are still produced. -/
theorem risk_failure_is_nonfatal (w : PhoenixWorkflow) (agent : DataAgent)
    (location target_audience workflow_id now msg : String) (generate_pdf : Bool)
    (hd : w.data_agent = some agent)
    (hg : w.guidance_agent.isSome = true) (hr : w.resource_agent.isSome = true)
    (he : agent.analyze_outbreak_risk location = .error msg) :
    ∃ report,
      (execute_full_analysis w location target_audience generate_pdf
          workflow_id now).result = .ok report
        ∧ report.components.risk_assessment = risk_fallback location msg
        ∧ report.components.risk_assessment.risk_level = some "MODERATE"
        ∧ report.components.risk_assessment.risk_score = some 25.0
        ∧ report.components.risk_assessment.confidence = some 0.5
        ∧ report.components.risk_assessment.error = some msg
        ∧ report.components.risk_assessment.insights
            = ["Risk assessment failed - using default moderate risk level"]
        ∧ report.components.public_guidance
            = generate_public_guidance_step w (risk_fallback location msg)
                location target_audience
        ∧ report.components.resource_allocation
            = generate_resource_report_step w (risk_fallback location msg)
                location generate_pdf := by
  have hcond : (w.data_agent.isSome && w.guidance_agent.isSome && w.resource_agent.isSome)
      = true := by simp [hd, hg, hr]
  have hrisk : execute_risk_assessment w location = risk_fallback location msg := by
    unfold execute_risk_assessment
    rw [hd]
    simp only [he]
  refine ⟨compile_final_report workflow_id now (risk_fallback location msg)
      (generate_public_guidance_step w (risk_fallback location msg) location target_audience)
      (generate_resource_report_step w (risk_fallback location msg) location generate_pdf),
    ?_, rfl, rfl, rfl, rfl, rfl, rfl, rfl, rfl⟩
  simp only [execute_full_analysis, initialize_workflow, update_stage, hcond, if_true, hrisk]

/-- Witness for C3: a concrete workflow whose risk collaborator fails with
message `"upstream api down"` while guidance and resource succeed. -/
theorem risk_failure_is_nonfatal_witness :
    ∃ report,
      (execute_full_analysis
          { data_agent := some
              { analyze_outbreak_risk := fun _ => .error "upstream api down"
                validate_rumors := fun _ _ => .ok ⟨[]⟩ }
            guidance_agent := some ⟨fun _ _ _ => .ok
              { location := none, target_audience := none, risk_level := none,
                key_recommendations := ["wash hands"], risk_context := none, error := none }⟩
            resource_agent := some ⟨fun _ _ => .ok
              { location := none, risk_context := none, status := none,
                recommendations := [], resource_projections := none,
                procurement_recommendations := [], error := none }⟩ }
          "Ada" "general_public" true "PHX-WF-2" "t").result = .ok report
        ∧ report.components.risk_assessment = risk_fallback "Ada" "upstream api down"
        ∧ report.components.risk_assessment.risk_level = some "MODERATE"
        ∧ report.components.risk_assessment.risk_score = some 25.0 :=
  have h := risk_failure_is_nonfatal
    { data_agent := some
        { analyze_outbreak_risk := fun _ => .error "upstream api down"
          validate_rumors := fun _ _ => .ok ⟨[]⟩ }
      guidance_agent := some ⟨fun _ _ _ => .ok
        { location := none, target_audience := none, risk_level := none,
          key_recommendations := ["wash hands"], risk_context := none, error := none }⟩
      resource_agent := some ⟨fun _ _ => .ok
        { location := none, risk_context := none, status := none,
          recommendations := [], resource_projections := none,
          procurement_recommendations := [], error := none }⟩ }
    (DataAgent.mk (fun _ => .error "upstream api down") (fun _ _ => .ok ⟨[]⟩))
    "Ada" "general_public" "PHX-WF-2" "t" "upstream api down" true rfl rfl rfl rfl
  have ⟨report, h1, h2, h3, h4, _⟩ := h
  ⟨report, h1, h2, h3, h4⟩

/-! ## Claim C10 -/

/-- Claim C10: in every execution of `execute_full_analysis`, the stored
context's `current_stage` is never set to `"initialization"` or
`"risk_assessment"`: the INITIALIZATION update runs before the context
exists in the state store and is silently dropped, and RISK_ASSESSMENT is
never entered as a distinct transition; the recorded stage writes are
either none at all (initialization failure) or exactly
`data_collection, guidance_generation, resource_planning,
report_compilation, finalization`, in that strictly forward order. -/
theorem stage_log_skips_initialization_and_risk (w : PhoenixWorkflow)
    (location target_audience workflow_id now : String) (generate_pdf : Bool) :
    "initialization" ∉ (execute_full_analysis w location target_audience generate_pdf
        workflow_id now).stage_log
      ∧ "risk_assessment" ∉ (execute_full_analysis w location target_audience generate_pdf
          workflow_id now).stage_log
      ∧ ((execute_full_analysis w location target_audience generate_pdf
            workflow_id now).stage_log = []
        ∨ (execute_full_analysis w location target_audience generate_pdf
            workflow_id now).stage_log
          = ["data_collection", "guidance_generation", "resource_planning",
             "report_compilation", "finalization"]) := by
  by_cases hcond : (w.data_agent.isSome && w.guidance_agent.isSome
      && w.resource_agent.isSome) = true
  · have hlog : (execute_full_analysis w location target_audience generate_pdf
        workflow_id now).stage_log
        = ["data_collection", "guidance_generation", "resource_planning",
           "report_compilation", "finalization"] := by
      simp only [execute_full_analysis, initialize_workflow, update_stage, hcond, if_true]
      rfl
    rw [hlog]
    exact ⟨by decide, by decide, .inr rfl⟩
  · have hcond2 : (w.data_agent.isSome && w.guidance_agent.isSome
        && w.resource_agent.isSome) = false := by
      revert hcond
      cases w.data_agent.isSome && w.guidance_agent.isSome && w.resource_agent.isSome <;> simp
    have hlog : (execute_full_analysis w location target_audience generate_pdf
        workflow_id now).stage_log = [] := by
      simp only [execute_full_analysis, initialize_workflow, update_stage, hcond2,
        Bool.false_eq_true, if_false]
    rw [hlog]
    exact ⟨by decide, by decide, .inl rfl⟩
